import Mathlib

/-!
# Verification of the DocuWorks worker pipelines

Shallow embedding of the PDF compression pipeline (`worker/pdf/compress.py`),
the page-extraction task (`worker/pdf/extract.py`) and the shared state
reporter (`worker/utils.py`), together with proofs of the specified
properties.

Modelling conventions:
* Python values passed as state fields are modelled by `PyVal`
  (strings and integers are the only kinds the tasks use).
* The Redis side effects of `_update` / `update_state` are modelled by the
  pure `UpdateEffect` record: the mapping handed to `hset` (after the
  `str(v)` conversion the code performs) and the JSON document handed to
  `publish` (after `json.dumps(fields)` on the original values).
* The pipeline bodies are modelled as functions from an environment
  (outcomes of the external collaborators: HTTP download, pikepdf,
  the OCR and Ghostscript subprocesses, the uploader) to a trace of
  observable events plus an `Except` result; a raised Python exception is
  the `.error` case, which the Celery task re-raises to its caller.
-/

/-- A Python value as it appears in the `**fields` of a state update.
The tasks only ever pass strings and ints. -/
inductive PyVal where
  | int (n : Int)
  | str (s : String)
deriving DecidableEq, Repr

/-- Python's `str(v)` on the values the tasks use. -/
def pyStr : PyVal → String
  | .int n => toString n
  | .str s => s

/-- A JSON scalar as produced by `json.dumps` on a field value. -/
inductive JsonVal where
  | num (n : Int)
  | str (s : String)
deriving DecidableEq, Repr

/-- `json.dumps` keeps the Python type of each value: ints become JSON
numbers, strings become JSON strings. -/
def jsonEncode : PyVal → JsonVal
  | .int n => .num n
  | .str s => .str s

/-- Is this JSON value a string? -/
def JsonVal.isStr : JsonVal → Bool
  | .str _ => true
  | .num _ => false

/-- The mapping argument of `REDIS.hset(task_id, mapping=...)`:
the code builds `{k: str(v) for k, v in fields.items()}`. -/
def hsetMapping (fields : List (String × PyVal)) : List (String × String) :=
  fields.map (fun kv => (kv.1, pyStr kv.2))

/-- The JSON document published on `progress:<task_id>`:
the code calls `json.dumps(fields)` on the original field values. -/
def publishPayload (fields : List (String × PyVal)) : List (String × JsonVal) :=
  fields.map (fun kv => (kv.1, jsonEncode kv.2))

/-- The two Redis side effects of one `_update` / `update_state` call
(the two functions have identical bodies). -/
structure UpdateEffect where
  hsetArgs : List (String × String)
  published : List (String × JsonVal)
deriving DecidableEq, Repr

/-- `_update(task_id, **fields)` in `compress.py`, identical to
`update_state` in `utils.py`: hset the stringified fields, publish the
JSON-encoded original fields. -/
def _update (fields : List (String × PyVal)) : UpdateEffect :=
  { hsetArgs := hsetMapping fields, published := publishPayload fields }

/-! ## Quality profiles (`LEVELS`) -/

/-- One entry of the `LEVELS` table. -/
structure LevelCfg where
  dpi : Nat
  jpeg_q : Nat
  jbig2 : String
  gs : String
deriving DecidableEq, Repr

def lowCfg : LevelCfg := { dpi := 300, jpeg_q := 85, jbig2 := "--jbig2-lossless", gs := "/printer" }

def mediumCfg : LevelCfg := { dpi := 150, jpeg_q := 65, jbig2 := "--jbig2-lossless", gs := "/ebook" }

def highCfg : LevelCfg := { dpi := 96, jpeg_q := 45, jbig2 := "--jbig2-lossy", gs := "/screen" }

/-- The `LEVELS` dict: lookup by exact (case-sensitive) key. -/
def LEVELS (name : String) : Option LevelCfg :=
  if name = "low" then some lowCfg
  else if name = "medium" then some mediumCfg
  else if name = "high" then some highCfg
  else none

/-- The profile the task actually uses:
`if compression_level not in LEVELS: compression_level = "medium"`,
then `cfg = LEVELS[compression_level]`. -/
def selectCfg (compression_level : String) : LevelCfg :=
  let level := if (LEVELS compression_level).isNone then "medium" else compression_level
  (LEVELS level).getD mediumCfg

/-! ## Artifact validation (`_validate_file`) -/

/-- The error taxonomy of the pipeline (§7 of the design).  Each
constructor names the concrete Python exception it models. -/
inductive PipeErr where
  /-- `requests` exception from `get` / `raise_for_status`. -/
  | downloadHttp
  /-- `ValueError("Source file download is 0 bytes.")`. -/
  | downloadZeroByte
  /-- `FileNotFoundError` raised by `_validate_file`. -/
  | missingArtifact (step : String)
  /-- `RuntimeError("[step] Generated file is 0 bytes")` raised by `_validate_file`. -/
  | emptyArtifact (step : String)
  /-- `pikepdf` failure opening the downloaded bytes. -/
  | pdfOpenError
  /-- `subprocess.CalledProcessError` from the named external binary. -/
  | processError (tool : String)
  /-- failure of the Cloudinary upload call. -/
  | uploadError
  /-- `ValueError("Invalid page range")` in the extract task. -/
  | invalidPageRange
  /-- `RuntimeError("Extracted PDF is empty")` in the extract task. -/
  | emptyExtract
deriving DecidableEq, Repr

/-- The spec's `DownloadError` kind covers network/HTTP failure and a
zero-byte payload. -/
def PipeErr.isDownloadError : PipeErr → Bool
  | .downloadHttp => true
  | .downloadZeroByte => true
  | _ => false

/-- `str(e)` for each modelled exception (the path portion of the
validation messages is omitted from the model; no claim depends on it). -/
def errText : PipeErr → String
  | .downloadHttp => "HTTP error"
  | .downloadZeroByte => "Source file download is 0 bytes."
  | .missingArtifact step => "[" ++ step ++ "] File not found"
  | .emptyArtifact step => "[" ++ step ++ "] Generated file is 0 bytes"
  | .pdfOpenError => "unable to open PDF"
  | .processError tool => "Command " ++ tool ++ " returned non-zero exit status"
  | .uploadError => "upload failed"
  | .invalidPageRange => "Invalid page range"
  | .emptyExtract => "Extracted PDF is empty"

/-- The `error=` field written by the two `except` clauses of
`compress_pdf_task`: `CalledProcessError` gets the `Process Error:` prefix,
every other exception the `Worker Error:` prefix. -/
def failMsg : PipeErr → String
  | .processError tool => "Process Error: " ++ errText (.processError tool)
  | e => "Worker Error: " ++ errText e

/-- A file as `_validate_file` sees it: `none` when `os.path.exists` is
false, `some size` with the `os.path.getsize` result otherwise. -/
def _validate_file (file : Option Nat) (step_name : String) : Except PipeErr Nat :=
  match file with
  | none => .error (.missingArtifact step_name)
  | some size => if size = 0 then .error (.emptyArtifact step_name) else .ok size

/-! ## Document classifier (`_is_scanned`) -/

/-- A PDF page as the classifier inspects it: the number of embedded
images (`page.images`) and whether `"/Font"` occurs in `page.resources`. -/
structure PdfPage where
  numImages : Nat
  hasFontResource : Bool
deriving DecidableEq, Repr

/-- The loop body's test: `has_images and not has_fonts`. -/
def scannedLike (p : PdfPage) : Bool :=
  decide (0 < p.numImages) && !p.hasFontResource

/-- `_is_scanned(pdf, sample=3)`: take the first `sample` pages, return
`False` on an empty slice, else compare the scanned-like fraction with
0.8.  (Python compares floats; for slices of at most 3 pages the float
and exact-rational comparisons agree, and the task always uses the
default `sample=3`.) -/
def _is_scanned (pdfPages : List PdfPage) (sample : Nat := 3) : Bool :=
  let pages := pdfPages.take sample
  if pages.isEmpty then false
  else decide ((0.8 : ℚ) ≤ ((pages.filter scannedLike).length : ℚ) / (pages.length : ℚ))

/-- The spec's wording of "scanned-like": at least one embedded image and
no embedded font resource. -/
def SpecScannedLike (p : PdfPage) : Prop :=
  1 ≤ p.numImages ∧ p.hasFontResource = false

instance : DecidablePred SpecScannedLike := fun _ => instDecidableAnd

/-- The sampled pages: the first 3, or all pages if the document has
fewer. -/
def sampledPages (pages : List PdfPage) : List PdfPage := pages.take 3

/-! ## The compression pipeline (`compress_pdf_task`) -/

/-- Python's `f"{x:.1f}"`: `x` rendered with one digit after the decimal
point (the model rounds the exact rational; no claim depends on the
rendered digits). -/
def fmt1 (q : ℚ) : String :=
  let n : Int := round (q * 10)
  let sign := if n < 0 then "-" else ""
  sign ++ toString (n.natAbs / 10) ++ "." ++ toString (n.natAbs % 10)

/-- One observable event of a pipeline run, in execution order. -/
inductive Ev where
  /-- a `_update(task_id, **fields)` call with the given raw fields. -/
  | update (fields : List (String × PyVal))
  /-- entry into the `tempfile.TemporaryDirectory()` context. -/
  | mkStagingDir
  /-- a file of the given size materialised in the staging directory. -/
  | writeFile (name : String) (size : Nat)
  /-- the `ocrmypdf` subprocess invoked on `input`, writing `output`. -/
  | runOcrCmd (input output : String)
  /-- the Ghostscript subprocess invoked on `input`, writing `output`. -/
  | runGsCmd (input output : String)
  /-- the Cloudinary upload call. -/
  | uploadCall
  /-- exit of the `TemporaryDirectory()` context: recursive removal of
  the staging directory and everything in it. -/
  | rmStagingDir
deriving DecidableEq, Repr

/-- Outcomes of the external collaborators during one run. -/
structure Env where
  /-- `requests.get` + `raise_for_status` succeeded. -/
  httpOk : Bool
  /-- `len(resp.content)`, the downloaded byte count (`orig_size`). -/
  dlBytes : Nat
  /-- the pages `pikepdf.open` yields, `none` if opening raises. -/
  pdfDoc : Option (List PdfPage)
  /-- size of `p1.pdf` written by `pdf.save(p1, compress_streams=True)`. -/
  p1Size : Nat
  /-- `OCR_EXEC` is not `None` (`shutil.which("ocrmypdf")` found it). -/
  ocrAvailable : Bool
  /-- the `ocrmypdf` subprocess exited 0. -/
  ocrExitOk : Bool
  /-- size of `p2.pdf` written by `ocrmypdf`. -/
  p2Size : Nat
  /-- the Ghostscript subprocess exited 0. -/
  gsExitOk : Bool
  /-- size of `out.pdf` written by Ghostscript. -/
  outSize : Nat
  /-- `secure_url` returned by `cu.upload`, `none` if the upload raises. -/
  uploadUrl : Option String
deriving Repr

/-- The body of the `with tempfile.TemporaryDirectory() as tmp:` block:
write and validate the source, pre-process with pikepdf, conditionally
OCR, compress with Ghostscript, validate and upload.  Returns the events
inside the block and either the error raised or
`(cloud_url, final_size, savings)`. -/
def withDirBody (env : Env) (orig_size : Nat) :
    List Ev × Except PipeErr (String × Nat × ℚ) :=
  let evs := [Ev.writeFile "src.pdf" orig_size]
  match _validate_file (some orig_size) "Download" with
  | .error e => (evs, .error e)
  | .ok _ =>
  let evs := evs ++ [Ev.update [("progress", PyVal.int 30)]]
  match env.pdfDoc with
  | none => (evs, .error .pdfOpenError)
  | some pages =>
  let scanned := _is_scanned pages
  let evs := evs ++ [Ev.writeFile "p1.pdf" env.p1Size]
  match _validate_file (some env.p1Size) "Pikepdf" with
  | .error e => (evs, .error e)
  | .ok _ =>
  -- 3. OCR (conditional); yields `p2_in`, the input handed to Ghostscript
  let ocrPart : List Ev × Except PipeErr String :=
    if scanned && env.ocrAvailable then
      let e1 := [Ev.update [("progress", PyVal.int 45)],
                 Ev.runOcrCmd "p1.pdf" "p2.pdf"]
      if !env.ocrExitOk then (e1, .error (.processError "ocrmypdf"))
      else
        let e2 := e1 ++ [Ev.writeFile "p2.pdf" env.p2Size]
        match _validate_file (some env.p2Size) "OCR" with
        | .error e => (e2, .error e)
        | .ok _ => (e2, .ok "p2.pdf")
    else ([], .ok "p1.pdf")
  match ocrPart with
  | (e, .error err) => (evs ++ e, .error err)
  | (e, .ok p2_in) =>
  let evs := evs ++ e
  -- 4. Ghostscript compression
  let evs := evs ++ [Ev.update [("progress", PyVal.int 70)],
                     Ev.runGsCmd p2_in "out.pdf"]
  if !env.gsExitOk then (evs, .error (.processError "gs"))
  else
  let evs := evs ++ [Ev.writeFile "out.pdf" env.outSize]
  match _validate_file (some env.outSize) "Ghostscript" with
  | .error e => (evs, .error e)
  | .ok final_size =>
  let savings : ℚ := 100 * (1 - (final_size : ℚ) / (orig_size : ℚ))
  let evs := evs ++ [Ev.update [("progress", PyVal.int 85)], Ev.uploadCall]
  -- 5. upload
  match env.uploadUrl with
  | none => (evs, .error .uploadError)
  | some url => (evs, .ok (url, final_size, savings))

/-- The body of the `try:` block of `compress_pdf_task`. -/
def compressBody (env : Env) (compression_level : String) :
    List Ev × Except PipeErr String :=
  let _cfg := selectCfg compression_level
  let evs := [Ev.update [("status", PyVal.str "processing"), ("progress", PyVal.int 5)]]
  if !env.httpOk then (evs, .error .downloadHttp)
  else
  let orig_size := env.dlBytes
  if orig_size = 0 then (evs, .error .downloadZeroByte)
  else
  let evs := evs ++ [Ev.update [("progress", PyVal.int 20)]]
  let evs := evs ++ [Ev.mkStagingDir]
  match withDirBody env orig_size with
  | (inner, .error e) => (evs ++ inner ++ [Ev.rmStagingDir], .error e)
  | (inner, .ok (cloud_url, final_size, savings)) =>
      let evs := evs ++ inner ++ [Ev.rmStagingDir]
      let evs := evs ++ [Ev.update
        [("status", PyVal.str "completed"),
         ("progress", PyVal.int 100),
         ("result_url", PyVal.str cloud_url),
         ("original_kb", PyVal.str (fmt1 ((orig_size : ℚ) / 1024))),
         ("compressed_kb", PyVal.str (fmt1 ((final_size : ℚ) / 1024))),
         ("saving", PyVal.str (fmt1 savings ++ "%"))]]
      (evs, .ok cloud_url)

/-- `compress_pdf_task`: the `try:` body wrapped in the two `except`
clauses, which append the `status=failed` update and re-raise. -/
def compress_pdf_task (env : Env) (compression_level : String) :
    List Ev × Except PipeErr String :=
  match compressBody env compression_level with
  | (evs, .ok url) => (evs, .ok url)
  | (evs, .error e) =>
      (evs ++ [Ev.update [("status", PyVal.str "failed"), ("error", PyVal.str (failMsg e))]],
       .error e)

/-- The integer `progress` value a single field contributes, if any. -/
def progressOfField (kv : String × PyVal) : List Int :=
  if kv.1 = "progress" then
    match kv.2 with
    | PyVal.int n => [n]
    | PyVal.str _ => []
  else []

/-- The sequence of `progress` values reported by the update events of a
trace, in order (only integer-valued `progress` fields; the compression
task reports all its progress values as ints). -/
def progressValues (evs : List Ev) : List Int :=
  evs.flatMap (fun ev =>
    match ev with
    | .update fields => fields.flatMap progressOfField
    | _ => [])

/-- Does an update event of the trace carry a `result_url` field? -/
def mentionsResultUrl (evs : List Ev) : Bool :=
  evs.any (fun ev =>
    match ev with
    | .update fields => fields.any (fun kv => kv.1 == "result_url")
    | _ => false)

/-! ## Theorems: classifier, validation, profiles, state reporter -/

theorem scannedLike_eq (p : PdfPage) : scannedLike p = decide (SpecScannedLike p) := by
  rcases p with ⟨n, f⟩
  cases f <;> simp [scannedLike, SpecScannedLike]
  omega

theorem scanned_count_eq (l : List PdfPage) :
    (l.filter scannedLike).length = l.countP (fun p => decide (SpecScannedLike p)) := by
  rw [List.countP_eq_length_filter]
  congr 1
  exact List.filter_congr (fun a _ => scannedLike_eq a)

/-- C1: the classifier returns "scanned" iff, among the sampled pages
(the first 3, or all pages if the document has fewer), the fraction of
pages with at least one embedded image and no embedded font resource is
≥ 0.8; a document with zero pages is classified "not scanned". -/
theorem classifier_spec (pages : List PdfPage) :
    (_is_scanned pages = true ↔
      (sampledPages pages ≠ [] ∧
        (0.8 : ℚ) ≤ ((sampledPages pages).countP (fun p => decide (SpecScannedLike p)) : ℚ)
                     / ((sampledPages pages).length : ℚ)))
    ∧ (pages = [] → _is_scanned pages = false) := by
  constructor
  · unfold _is_scanned sampledPages
    cases he : (pages.take 3).isEmpty
    · have hne : pages.take 3 ≠ [] := by simpa [List.isEmpty_iff] using he
      simp [he, hne, scanned_count_eq]
    · have h0 : pages.take 3 = [] := List.isEmpty_iff.mp he
      simp [he, h0]
  · rintro rfl
    rfl

/-- Witness for C1 at a zero-page document and at a one-page
image-only document. -/
theorem classifier_spec_witness :
    _is_scanned ([] : List PdfPage) = false ∧ _is_scanned [⟨1, false⟩] = true :=
  ⟨(classifier_spec []).2 rfl,
   (classifier_spec [⟨1, false⟩]).1.mpr
     ⟨by decide, by norm_num [sampledPages, SpecScannedLike]⟩⟩

/-- C3: `_validate_file` fails with `MissingArtifact` (a
`FileNotFoundError`) when the path does not exist, with `EmptyArtifact`
(a `RuntimeError`) when the file exists with size zero, and otherwise
returns the file's byte size. -/
theorem validate_file_spec (file : Option Nat) (step : String) :
    (file = none → _validate_file file step = .error (.missingArtifact step))
    ∧ (file = some 0 → _validate_file file step = .error (.emptyArtifact step))
    ∧ (∀ n, file = some n → n ≠ 0 → _validate_file file step = .ok n) := by
  refine ⟨fun h => ?_, fun h => ?_, fun n h hn => ?_⟩
  · subst h; rfl
  · subst h; rfl
  · subst h; simp [_validate_file, hn]

/-- Witness for C3 at a missing path, an empty file and a 7-byte file. -/
theorem validate_file_spec_witness :
    _validate_file none "Download" = .error (.missingArtifact "Download")
    ∧ _validate_file (some 0) "Pikepdf" = .error (.emptyArtifact "Pikepdf")
    ∧ _validate_file (some 7) "OCR" = .ok 7 :=
  ⟨(validate_file_spec none "Download").1 rfl,
   (validate_file_spec (some 0) "Pikepdf").2.1 rfl,
   (validate_file_spec (some 7) "OCR").2.2 7 rfl (by decide)⟩

/-- C8: the names "low", "medium" and "high" (case-sensitive) select
their own profile parameters; every other requested name is silently
remapped to the parameters of "medium". -/
theorem quality_profiles :
    selectCfg "low" = lowCfg ∧ selectCfg "medium" = mediumCfg ∧ selectCfg "high" = highCfg
    ∧ ∀ s, s ≠ "low" → s ≠ "medium" → s ≠ "high" → selectCfg s = mediumCfg := by
  refine ⟨rfl, rfl, rfl, fun s h1 h2 h3 => ?_⟩
  simp [selectCfg, LEVELS, h1, h2, h3]

/-- Witness for C8 at the unrecognized name "ultra" (and the
case-sensitivity example "Low"). -/
theorem quality_profiles_witness :
    selectCfg "ultra" = mediumCfg ∧ selectCfg "Low" = mediumCfg :=
  ⟨quality_profiles.2.2.2 "ultra" (by decide) (by decide) (by decide),
   quality_profiles.2.2.2 "Low" (by decide) (by decide) (by decide)⟩

/-- C9 counterexample: `_update` with the integer field `progress=5`
publishes the JSON number 5, not a string, on the progress channel, so
not every published field value is serialized as a string. -/
theorem update_serialization_cex :
    (_update [("progress", PyVal.int 5)]).published = [("progress", JsonVal.num 5)]
    ∧ ¬ (∀ kv ∈ (_update [("progress", PyVal.int 5)]).published, kv.2.isStr = true) := by
  refine ⟨rfl, fun h => ?_⟩
  have h5 := h ("progress", JsonVal.num 5) (by simp [_update, publishPayload, jsonEncode])
  simp [JsonVal.isStr] at h5

/-- C9 amended: every field value written into the job's key-value
record is serialized as a string (the `str(v)` rendering); the message
published on the progress channel JSON-encodes the original values, so
string-valued fields appear as JSON strings but integer-valued fields
appear as JSON numbers. -/
theorem update_serialization (fields : List (String × PyVal)) :
    (∀ k v, (k, v) ∈ fields →
      (k, pyStr v) ∈ (_update fields).hsetArgs
      ∧ (k, jsonEncode v) ∈ (_update fields).published)
    ∧ (∀ k s, (k, PyVal.str s) ∈ fields → (k, JsonVal.str s) ∈ (_update fields).published)
    ∧ (∀ k n, (k, PyVal.int n) ∈ fields → (k, JsonVal.num n) ∈ (_update fields).published) := by
  refine ⟨fun k v h => ⟨?_, ?_⟩, fun k s h => ?_, fun k n h => ?_⟩
  · exact List.mem_map.mpr ⟨(k, v), h, rfl⟩
  · exact List.mem_map.mpr ⟨(k, v), h, rfl⟩
  · exact List.mem_map.mpr ⟨(k, PyVal.str s), h, rfl⟩
  · exact List.mem_map.mpr ⟨(k, PyVal.int n), h, rfl⟩

/-- Witness for C9's amended claim at the fields of a failure update. -/
theorem update_serialization_witness :
    ("status", "failed") ∈ (_update [("status", PyVal.str "failed")]).hsetArgs
    ∧ ("status", JsonVal.str "failed") ∈ (_update [("status", PyVal.str "failed")]).published :=
  ⟨((update_serialization [("status", PyVal.str "failed")]).1 "status"
      (PyVal.str "failed") (by simp)).1,
   (update_serialization [("status", PyVal.str "failed")]).2.1 "status" "failed" (by simp)⟩

/-! ## Theorems: pipeline behaviour -/

/-- C5: a zero-byte downloaded source fails with the zero-byte
`DownloadError` before any staging occurs: no staging directory is
created and no staging artifact is written. -/
theorem zero_byte_download (env : Env) (lvl : String)
    (hhttp : env.httpOk = true) (hzero : env.dlBytes = 0) :
    (compress_pdf_task env lvl).2 = .error .downloadZeroByte
    ∧ PipeErr.downloadZeroByte.isDownloadError = true
    ∧ Ev.mkStagingDir ∉ (compress_pdf_task env lvl).1
    ∧ ∀ name size, Ev.writeFile name size ∉ (compress_pdf_task env lvl).1 := by
  unfold compress_pdf_task compressBody
  simp [hhttp, hzero, PipeErr.isDownloadError]

/-- An environment whose download succeeds but yields zero bytes. -/
def envZeroByte : Env :=
  { httpOk := true, dlBytes := 0, pdfDoc := none, p1Size := 0, ocrAvailable := false,
    ocrExitOk := false, p2Size := 0, gsExitOk := false, outSize := 0, uploadUrl := none }

/-- Witness for C5 at a concrete zero-byte environment. -/
theorem zero_byte_download_witness :
    (compress_pdf_task envZeroByte "medium").2 = .error .downloadZeroByte
    ∧ Ev.mkStagingDir ∉ (compress_pdf_task envZeroByte "medium").1 :=
  ⟨(zero_byte_download envZeroByte "medium" rfl rfl).1,
   (zero_byte_download envZeroByte "medium" rfl rfl).2.2.1⟩

/-- C7: whenever a run enters the staging phase (creates the staging
directory), the directory and everything in it are removed by the time
execution ends, on the normal-return path and on every error path. -/
theorem staging_cleanup (env : Env) (lvl : String)
    (h : Ev.mkStagingDir ∈ (compress_pdf_task env lvl).1) :
    Ev.rmStagingDir ∈ (compress_pdf_task env lvl).1 := by
  unfold compress_pdf_task compressBody at h ⊢
  by_cases h1 : env.httpOk = true
  · by_cases h2 : env.dlBytes = 0
    · simp [h1, h2] at h
    · rcases hw : withDirBody env env.dlBytes with ⟨inner, r⟩
      cases r <;> simp [h1, h2, hw]
  · simp [h1] at h

/-- C6: for a document classified scanned, when no OCR binary is
available the OCR stage is skipped entirely, the pre-OCR artifact
`p1.pdf` becomes the Ghostscript input, and the pipeline completes
successfully. -/
theorem ocr_skip_degraded (env : Env) (lvl : String) (pages : List PdfPage) (url : String)
    (hhttp : env.httpOk = true) (hdl : env.dlBytes ≠ 0)
    (hdoc : env.pdfDoc = some pages) (hscan : _is_scanned pages = true)
    (hocr : env.ocrAvailable = false)
    (hp1 : env.p1Size ≠ 0) (hgs : env.gsExitOk = true) (hout : env.outSize ≠ 0)
    (hup : env.uploadUrl = some url) :
    (compress_pdf_task env lvl).2 = .ok url
    ∧ (∀ i o, Ev.runOcrCmd i o ∉ (compress_pdf_task env lvl).1)
    ∧ Ev.runGsCmd "p1.pdf" "out.pdf" ∈ (compress_pdf_task env lvl).1 := by
  unfold compress_pdf_task compressBody withDirBody
  simp [hhttp, hdl, hdoc, hscan, hocr, hp1, hgs, hout, hup, _validate_file]

/-- An environment with a scanned one-page document and no OCR binary,
where every other stage succeeds. -/
def envNoOcr : Env :=
  { httpOk := true, dlBytes := 1000, pdfDoc := some [⟨1, false⟩], p1Size := 900,
    ocrAvailable := false, ocrExitOk := false, p2Size := 0, gsExitOk := true,
    outSize := 400, uploadUrl := some "https://cdn.example/out.pdf" }

/-- Witness for C6 at `envNoOcr`. -/
theorem ocr_skip_degraded_witness :
    (compress_pdf_task envNoOcr "medium").2 = .ok "https://cdn.example/out.pdf"
    ∧ (∀ i o, Ev.runOcrCmd i o ∉ (compress_pdf_task envNoOcr "medium").1)
    ∧ Ev.runGsCmd "p1.pdf" "out.pdf" ∈ (compress_pdf_task envNoOcr "medium").1 :=
  ocr_skip_degraded envNoOcr "medium" [⟨1, false⟩] "https://cdn.example/out.pdf"
    rfl (by decide) rfl (by unfold _is_scanned; norm_num [scannedLike]) rfl
    (by decide) rfl (by decide) rfl

/-- C2: for every successful run, the sequence of progress values
reported to the state reporter is non-decreasing and the last reported
progress value is exactly 100. -/
theorem progress_monotone (env : Env) (lvl : String) (url : String)
    (h : (compress_pdf_task env lvl).2 = .ok url) :
    List.Chain' (· ≤ ·) (progressValues (compress_pdf_task env lvl).1)
    ∧ (progressValues (compress_pdf_task env lvl).1).getLast? = some (100 : Int) := by
  unfold compress_pdf_task compressBody withDirBody at h ⊢
  by_cases h1 : env.httpOk = true
  case neg => simp [h1] at h
  by_cases h2 : env.dlBytes = 0
  case pos => simp [h1, h2] at h
  rcases hdoc : env.pdfDoc with _ | pages
  · simp [h1, h2, hdoc, _validate_file] at h
  by_cases hp1 : env.p1Size = 0
  case pos => simp [h1, h2, hdoc, hp1, _validate_file] at h
  by_cases hsc : (_is_scanned pages && env.ocrAvailable) = true
  · by_cases hocr : env.ocrExitOk = true
    case neg => simp [h1, h2, hdoc, hp1, hsc, hocr, _validate_file] at h
    by_cases hp2 : env.p2Size = 0
    case pos => simp [h1, h2, hdoc, hp1, hsc, hocr, hp2, _validate_file] at h
    by_cases hgs : env.gsExitOk = true
    case neg => simp [h1, h2, hdoc, hp1, hsc, hocr, hp2, hgs, _validate_file] at h
    by_cases hout : env.outSize = 0
    case pos => simp [h1, h2, hdoc, hp1, hsc, hocr, hp2, hgs, hout, _validate_file] at h
    rcases hup : env.uploadUrl with _ | u
    · simp [h1, h2, hdoc, hp1, hsc, hocr, hp2, hgs, hout, hup, _validate_file] at h
    simp [h1, h2, hdoc, hp1, hsc, hocr, hp2, hgs, hout, hup, _validate_file,
          progressValues, progressOfField, List.chain'_cons]
  · by_cases hgs : env.gsExitOk = true
    case neg => simp [h1, h2, hdoc, hp1, hsc, hgs, _validate_file] at h
    by_cases hout : env.outSize = 0
    case pos => simp [h1, h2, hdoc, hp1, hsc, hgs, hout, _validate_file] at h
    rcases hup : env.uploadUrl with _ | u
    · simp [h1, h2, hdoc, hp1, hsc, hgs, hout, hup, _validate_file] at h
    simp [h1, h2, hdoc, hp1, hsc, hgs, hout, hup, _validate_file,
          progressValues, progressOfField, List.chain'_cons]

/-- Environment for a fully successful run on a zero-page (text-like)
document. -/
def envHappy : Env :=
  { httpOk := true, dlBytes := 1000, pdfDoc := some [], p1Size := 900,
    ocrAvailable := true, ocrExitOk := true, p2Size := 800, gsExitOk := true,
    outSize := 400, uploadUrl := some "https://cdn.example/c.pdf" }

/-- Witness for C2 at the successful environment `envHappy`. -/
theorem progress_monotone_witness :
    List.Chain' (· ≤ ·) (progressValues (compress_pdf_task envHappy "medium").1)
    ∧ (progressValues (compress_pdf_task envHappy "medium").1).getLast? = some (100 : Int) :=
  progress_monotone envHappy "medium" "https://cdn.example/c.pdf" rfl

/-- C4: every error raised in any stage is recorded as a final
`status=failed` update carrying an error message, the error is re-raised
to the caller (the task's result is exactly that error), and no update
of the failed run ever carries a `result_url` field. -/
theorem failure_reporting (env : Env) (lvl : String) (e : PipeErr)
    (h : (compress_pdf_task env lvl).2 = .error e) :
    (compress_pdf_task env lvl).1.getLast? =
      some (Ev.update [("status", PyVal.str "failed"), ("error", PyVal.str (failMsg e))])
    ∧ mentionsResultUrl (compress_pdf_task env lvl).1 = false := by
  unfold compress_pdf_task compressBody withDirBody at h ⊢
  by_cases h1 : env.httpOk = true
  case neg =>
    simp [h1] at h
    subst h
    simp [h1, mentionsResultUrl]
  by_cases h2 : env.dlBytes = 0
  case pos =>
    simp [h1, h2] at h
    subst h
    simp [h1, h2, mentionsResultUrl]
  rcases hdoc : env.pdfDoc with _ | pages
  · simp [h1, h2, hdoc, _validate_file] at h
    subst h
    simp [h1, h2, hdoc, _validate_file, mentionsResultUrl]
  by_cases hp1 : env.p1Size = 0
  case pos =>
    simp [h1, h2, hdoc, hp1, _validate_file] at h
    subst h
    simp [h1, h2, hdoc, hp1, _validate_file, mentionsResultUrl]
  by_cases hsc : (_is_scanned pages && env.ocrAvailable) = true
  · by_cases hocr : env.ocrExitOk = true
    case neg =>
      simp [h1, h2, hdoc, hp1, hsc, hocr, _validate_file] at h
      subst h
      simp [h1, h2, hdoc, hp1, hsc, hocr, _validate_file, mentionsResultUrl]
    by_cases hp2 : env.p2Size = 0
    case pos =>
      simp [h1, h2, hdoc, hp1, hsc, hocr, hp2, _validate_file] at h
      subst h
      simp [h1, h2, hdoc, hp1, hsc, hocr, hp2, _validate_file, mentionsResultUrl]
    by_cases hgs : env.gsExitOk = true
    case neg =>
      simp [h1, h2, hdoc, hp1, hsc, hocr, hp2, hgs, _validate_file] at h
      subst h
      simp [h1, h2, hdoc, hp1, hsc, hocr, hp2, hgs, _validate_file, mentionsResultUrl]
    by_cases hout : env.outSize = 0
    case pos =>
      simp [h1, h2, hdoc, hp1, hsc, hocr, hp2, hgs, hout, _validate_file] at h
      subst h
      simp [h1, h2, hdoc, hp1, hsc, hocr, hp2, hgs, hout, _validate_file, mentionsResultUrl]
    rcases hup : env.uploadUrl with _ | u
    · simp [h1, h2, hdoc, hp1, hsc, hocr, hp2, hgs, hout, hup, _validate_file] at h
      subst h
      simp [h1, h2, hdoc, hp1, hsc, hocr, hp2, hgs, hout, hup, _validate_file, mentionsResultUrl]
    · simp [h1, h2, hdoc, hp1, hsc, hocr, hp2, hgs, hout, hup, _validate_file] at h
  · by_cases hgs : env.gsExitOk = true
    case neg =>
      simp [h1, h2, hdoc, hp1, hsc, hgs, _validate_file] at h
      subst h
      simp [h1, h2, hdoc, hp1, hsc, hgs, _validate_file, mentionsResultUrl]
    by_cases hout : env.outSize = 0
    case pos =>
      simp [h1, h2, hdoc, hp1, hsc, hgs, hout, _validate_file] at h
      subst h
      simp [h1, h2, hdoc, hp1, hsc, hgs, hout, _validate_file, mentionsResultUrl]
    rcases hup : env.uploadUrl with _ | u
    · simp [h1, h2, hdoc, hp1, hsc, hgs, hout, hup, _validate_file] at h
      subst h
      simp [h1, h2, hdoc, hp1, hsc, hgs, hout, hup, _validate_file, mentionsResultUrl]
    · simp [h1, h2, hdoc, hp1, hsc, hgs, hout, hup, _validate_file] at h

/-- Environment where Ghostscript exits non-zero on a text-like
document. -/
def envGsFail : Env :=
  { httpOk := true, dlBytes := 1000, pdfDoc := some [], p1Size := 900,
    ocrAvailable := false, ocrExitOk := false, p2Size := 0, gsExitOk := false,
    outSize := 0, uploadUrl := none }

/-- Witness for C4 at the Ghostscript-failure environment. -/
theorem failure_reporting_witness :
    (compress_pdf_task envGsFail "low").1.getLast? =
      some (Ev.update [("status", PyVal.str "failed"),
                       ("error", PyVal.str (failMsg (PipeErr.processError "gs")))])
    ∧ mentionsResultUrl (compress_pdf_task envGsFail "low").1 = false :=
  failure_reporting envGsFail "low" (PipeErr.processError "gs") rfl

/-- Witness for C7 at the Ghostscript-failure environment (an error
path that entered staging). -/
theorem staging_cleanup_witness :
    Ev.rmStagingDir ∈ (compress_pdf_task envGsFail "medium").1 :=
  staging_cleanup envGsFail "medium" (by decide)

/-! ## The page-extraction task (`extract_pdf_task`) -/

/-- One observable event of an extraction run (`α` is the page type of
the source document). -/
inductive EEv (α : Type) where
  /-- an `update_state(task_id, **fields)` call with the given raw fields. -/
  | update (fields : List (String × PyVal))
  /-- `extracted_pdf.insert_pdf(original_pdf, from_page, to_page)`:
  the copied pages. -/
  | insertPages (pages : List α)
  /-- the Cloudinary upload call. -/
  | uploadCall
deriving DecidableEq, Repr

/-- Outcomes of the external collaborators during one extraction run. -/
structure ExtractEnv (α : Type) where
  /-- `requests.get` + `raise_for_status` succeeded. -/
  httpOk : Bool
  /-- the pages of the downloaded PDF once `fitz.open` has parsed it
  (`total_pages = page_count` is their number). -/
  pages : List α
  /-- `len(extracted_buffer.getvalue())` after saving the new PDF. -/
  savedSize : Nat
  /-- `secure_url` returned by the upload, `none` if the upload raises. -/
  uploadUrl : Option String

/-- The body of the `try:` block of `extract_pdf_task`.  Page numbers
are 1-based; `insert_pdf` receives `from_page = start_page - 1`,
`to_page = end_page - 1` (0-based, inclusive). -/
def extractBody {α : Type} (env : ExtractEnv α) (start_page end_page : Int) :
    List (EEv α) × Except PipeErr String :=
  let evs := [EEv.update [("status", PyVal.str "processing"), ("progress", PyVal.int 5)]]
  if !env.httpOk then (evs, .error .downloadHttp)
  else
  let evs := evs ++ [EEv.update [("progress", PyVal.int 15)]]
  let total_pages : Int := env.pages.length
  if start_page < 1 ∨ end_page > total_pages ∨ start_page > end_page then
    (evs, .error .invalidPageRange)
  else
  let evs := evs ++ [EEv.update [("progress", PyVal.int 30)]]
  let extracted := (env.pages.drop (start_page - 1).toNat).take (end_page - start_page + 1).toNat
  let evs := evs ++ [EEv.insertPages extracted, EEv.update [("progress", PyVal.int 60)]]
  if env.savedSize = 0 then (evs, .error .emptyExtract)
  else
  let evs := evs ++ [EEv.update [("progress", PyVal.int 80)], EEv.uploadCall]
  match env.uploadUrl with
  | none => (evs, .error .uploadError)
  | some url =>
      (evs ++ [EEv.update [("status", PyVal.str "completed"), ("progress", PyVal.str "100"),
                           ("result_url", PyVal.str url)]],
       .ok url)

/-- `extract_pdf_task`: the `try:` body wrapped in the `except` clause,
which records `status=failed, error=str(e)` and re-raises. -/
def extract_pdf_task {α : Type} (env : ExtractEnv α) (start_page end_page : Int) :
    List (EEv α) × Except PipeErr String :=
  match extractBody env start_page end_page with
  | (evs, .ok url) => (evs, .ok url)
  | (evs, .error e) =>
      (evs ++ [EEv.update [("status", PyVal.str "failed"), ("error", PyVal.str (errText e))]],
       .error e)

/-- C10: with 1-based bounds on a downloaded PDF, the extract task
raises the invalid-page-range error exactly when
`start_page < 1 ∨ end_page > total_pages ∨ start_page > end_page`; in
that case it records `status=failed` as its final update and uploads
nothing, and otherwise it copies pages `start_page` through `end_page`
inclusive into the new document. -/
theorem extract_page_range {α : Type} (env : ExtractEnv α) (s e : Int)
    (hhttp : env.httpOk = true) :
    ((extract_pdf_task env s e).2 = .error .invalidPageRange ↔
       (s < 1 ∨ e > (env.pages.length : Int) ∨ s > e))
    ∧ ((s < 1 ∨ e > (env.pages.length : Int) ∨ s > e) →
        (extract_pdf_task env s e).1.getLast? =
          some (EEv.update [("status", PyVal.str "failed"),
                            ("error", PyVal.str "Invalid page range")])
        ∧ EEv.uploadCall ∉ (extract_pdf_task env s e).1)
    ∧ (¬ (s < 1 ∨ e > (env.pages.length : Int) ∨ s > e) →
        EEv.insertPages ((env.pages.drop (s - 1).toNat).take (e - s + 1).toNat)
          ∈ (extract_pdf_task env s e).1) := by
  unfold extract_pdf_task extractBody
  by_cases hr : s < 1 ∨ e > (env.pages.length : Int) ∨ s > e
  · simp [hhttp, hr, errText]
  · by_cases hz : env.savedSize = 0
    · simp [hhttp, hr, hz]
    · rcases hup : env.uploadUrl with _ | u
      · simp [hhttp, hr, hz, hup]
      · simp [hhttp, hr, hz, hup]

/-- Witness for C10: a 3-page document, the valid range 2..3 and the
invalid range 0..3. -/
theorem extract_page_range_witness :
    EEv.insertPages [20, 30] ∈
      (extract_pdf_task ⟨true, [10, 20, 30], 50, some "https://cdn.example/e.pdf"⟩ 2 3).1
    ∧ EEv.uploadCall ∉
        (extract_pdf_task ⟨true, [(10 : Nat), 20, 30], 50, some "https://cdn.example/e.pdf"⟩ 0 3).1 :=
  ⟨(extract_page_range ⟨true, [10, 20, 30], 50, some "https://cdn.example/e.pdf"⟩ 2 3
      rfl).2.2 (by decide),
   ((extract_page_range ⟨true, [(10 : Nat), 20, 30], 50, some "https://cdn.example/e.pdf"⟩ 0 3
      rfl).2.1 (by decide)).2⟩
